import Mathlib

/-
  Verification development for the PP-AI-Service dictionary orchestration
  core (src/ai_svc/dictionary/service.py, prompts.py, schemas.py).

  Python dict results tagged with a success flag are modelled as a
  TaskResult value; model responses and thread-pool future outcomes are
  modelled as explicit inductive data; Python lists become Lean lists and
  Python ints become Int.
-/

namespace PPAI

/-- Mirrors the `Dict[str, Any]` results carrying `success: True` plus data,
or `success: False` plus an `error` string, used throughout service.py. -/
inductive TaskResult (α : Type) where
  | ok (data : α)
  | err (msg : String)
  deriving DecidableEq, Repr

/-- Mirrors schemas.py `SenseCoreMetadata` (no definition field: the API
always provides the definition). -/
structure SenseCoreMetadata where
  part_of_speech : String
  usage_register : List String
  domain : List String
  tone : String
  deriving DecidableEq, Repr

/-- Mirrors schemas.py `SenseRelatedWords`. -/
structure SenseRelatedWords where
  synonyms : List String
  antonyms : List String
  word_specific_phrases : List String
  deriving DecidableEq, Repr

/-- The `data` dict built by `_fetch_sense_core_metadata` (service.py
lines 826-855): the model output plus the API definition assembled in. -/
structure CoreData where
  definition : String
  part_of_speech : String
  usage_register : List String
  domain : List String
  tone : String
  deriving DecidableEq, Repr

/-- The `sense_detail` dict assembled by `_fetch_enhanced_sense`
(service.py lines 804-813). -/
structure SenseDetail where
  definition : String
  part_of_speech : String
  usage_register : List String
  domain : List String
  tone : String
  synonyms : List String
  antonyms : List String
  word_specific_phrases : List String
  deriving DecidableEq, Repr

/-- Outcome of one model-agent call as seen by the fetch helpers: the
`response.content` either parses into the expected schema, parses into
something else, or the call raises. -/
inductive AgentResponse (α : Type) where
  | parsed (content : α)
  | unparsed
  | raised (msg : String)
  deriving DecidableEq, Repr

/-- State of one submitted thread-pool future at fan-in time, as
inspected by `_get_future_result` (service.py lines 1033-1055): the
callable ran on some agent response, the future was cancelled at the
deadline, its result is not ready, or reading the result raised. -/
inductive FutureOutcome (ρ : Type) where
  | ran (resp : ρ)
  | cancelled
  | notReady
  | raised (msg : String)
  deriving DecidableEq, Repr

/-- Mirrors `_get_future_result` (service.py lines 1033-1055) applied to a
future created by submitting callable `f`: a cancelled future yields the
"was cancelled" reason, a pending one the "not ready" reason, a raising
one the exception text, and a completed one the result of `f`. -/
def runFuture {ρ α : Type} (f : ρ → TaskResult α) (task_name : String) :
    FutureOutcome ρ → TaskResult α
  | .ran resp => f resp
  | .cancelled => .err ("Task " ++ task_name ++ " was cancelled")
  | .notReady => .err ("Task " ++ task_name ++ " not ready")
  | .raised m => .err m

/-- Mirrors `_fetch_sense_core_metadata` (service.py lines 826-855):
`data = response.content.model_dump()`, then
`data["definition"] = basic_definition`, and `part_of_speech` is
overridden when the passed one is truthy (non-empty). -/
def fetch_sense_core_metadata (basic_definition part_of_speech : String)
    (resp : AgentResponse SenseCoreMetadata) : TaskResult CoreData :=
  match resp with
  | .parsed c =>
      .ok { definition := basic_definition
            part_of_speech := if part_of_speech ≠ "" then part_of_speech else c.part_of_speech
            usage_register := c.usage_register
            domain := c.domain
            tone := c.tone }
  | .unparsed => .err "Failed to parse core metadata"
  | .raised m => .err m

/-- Mirrors the result handling of `_fetch_sense_related_words`
(service.py lines 888-920): a parsed `SenseRelatedWords` is returned as
data, anything else is a failure. -/
def fetch_sense_related_words (resp : AgentResponse SenseRelatedWords) :
    TaskResult SenseRelatedWords :=
  match resp with
  | .parsed c => .ok c
  | .unparsed => .err "Failed to parse related words"
  | .raised m => .err m

/-- Helper for `dedupKeepFirst`: walk the list keeping each element on
first sight, skipping elements already seen. -/
def dedupKeepFirstAux (seen : List String) : List String → List String
  | [] => []
  | x :: xs =>
      if x ∈ seen then dedupKeepFirstAux seen xs
      else x :: dedupKeepFirstAux (x :: seen) xs

/-- Mirrors Python `list(dict.fromkeys(xs))`: de-duplicate keeping the
first occurrence of each element, preserving first-seen order. -/
def dedupKeepFirst (l : List String) : List String :=
  dedupKeepFirstAux [] l

/-- Mirrors the `while len(l) < n: l.append("")` padding loops of
`_fetch_enhanced_sense` (service.py lines 797-802). -/
def padTo (n : Nat) (l : List String) : List String :=
  l ++ List.replicate (n - l.length) ""

/-- `basic_definition = api_definitions[0] if api_definitions else ""`
(service.py line 730). -/
def basicDefinition (api_definitions : List String) : String :=
  match api_definitions with
  | d :: _ => d
  | [] => ""

/-- The `TARGET_SYNONYMS` constant of `_fetch_enhanced_sense`. -/
def TARGET_SYNONYMS : Nat := 3

/-- The `TARGET_ANTONYMS` constant of `_fetch_enhanced_sense`. -/
def TARGET_ANTONYMS : Nat := 3

/-- The `TARGET_PHRASES` constant of `_fetch_enhanced_sense`. -/
def TARGET_PHRASES : Nat := 3

/-- `synonyms_needed = max(0, TARGET_SYNONYMS - len(api_synonyms))`
(service.py line 739). -/
def synonymsNeeded (api_synonyms : List String) : Int :=
  max 0 ((TARGET_SYNONYMS : Int) - api_synonyms.length)

/-- `antonyms_needed = max(0, TARGET_ANTONYMS - len(api_antonyms))`
(service.py line 740). -/
def antonymsNeeded (api_antonyms : List String) : Int :=
  max 0 ((TARGET_ANTONYMS : Int) - api_antonyms.length)

/-- `phrases_needed = TARGET_PHRASES` (service.py line 741). -/
def phrasesNeeded : Int := (TARGET_PHRASES : Int)

/-- The core sub-task result read at fan-in of `_fetch_enhanced_sense`
(service.py line 768). -/
def enhancedCoreResult (part_of_speech : String) (api_definitions : List String)
    (coreFut : FutureOutcome (AgentResponse SenseCoreMetadata)) : TaskResult CoreData :=
  runFuture (fetch_sense_core_metadata (basicDefinition api_definitions) part_of_speech)
    "core_metadata" coreFut

/-- The related-words sub-task result read at fan-in of
`_fetch_enhanced_sense` (service.py line 769). -/
def enhancedRelatedResult
    (relFut : FutureOutcome (AgentResponse SenseRelatedWords)) :
    TaskResult SenseRelatedWords :=
  runFuture fetch_sense_related_words "related_words" relFut

/-- The `errors` list built by `_fetch_enhanced_sense` when a sub-task
failed (service.py lines 775-779). -/
def subtaskErrors (core_result : TaskResult CoreData)
    (related_result : TaskResult SenseRelatedWords) : List String :=
  (match core_result with
   | .err e => ["core: " ++ e]
   | .ok _ => []) ++
  (match related_result with
   | .err e => ["related: " ++ e]
   | .ok _ => [])

/-- Mirrors `_fetch_enhanced_sense` (service.py lines 721-824) from the
fan-in point: both sub-task futures are read with `_get_future_result`;
if either failed the whole call fails with the aggregated message; on
success the two results are merged with the ground-truth lists, each
merged list de-duplicated first-seen, truncated to 3 and padded to 3. -/
def fetch_enhanced_sense (part_of_speech : String)
    (api_definitions api_synonyms api_antonyms : List String)
    (coreFut : FutureOutcome (AgentResponse SenseCoreMetadata))
    (relFut : FutureOutcome (AgentResponse SenseRelatedWords)) :
    TaskResult SenseDetail :=
  match enhancedCoreResult part_of_speech api_definitions coreFut,
        enhancedRelatedResult relFut with
  | .ok core, .ok rel =>
      .ok { definition := core.definition
            part_of_speech := core.part_of_speech
            usage_register := core.usage_register
            domain := core.domain
            tone := core.tone
            synonyms :=
              padTo TARGET_SYNONYMS
                ((dedupKeepFirst (api_synonyms ++ rel.synonyms)).take TARGET_SYNONYMS)
            antonyms :=
              padTo TARGET_ANTONYMS
                ((dedupKeepFirst (api_antonyms ++ rel.antonyms)).take TARGET_ANTONYMS)
            word_specific_phrases :=
              padTo TARGET_PHRASES (rel.word_specific_phrases.take TARGET_PHRASES) }
  | cr, rr =>
      .err ("Parallel execution failed: " ++
        String.intercalate ", " (subtaskErrors cr rr))

/-- One element of the `phonetics` array of a raw dictionary-API entry;
absent `text`/`audio` keys are the empty string (`p.get("audio", "")`). -/
structure Phonetic where
  text : String
  audio : String
  deriving DecidableEq, Repr

/-- One definition object of a raw API meaning; absent keys default to
empty (`def_obj.get("example", "")`, `def_obj.get("synonyms", [])`). -/
structure ApiDefinition where
  definition : String
  example_ : String
  synonyms : List String
  antonyms : List String
  deriving DecidableEq, Repr

/-- One meaning (part-of-speech group) of a raw API entry. -/
structure Meaning where
  partOfSpeech : String
  definitions : List ApiDefinition
  synonyms : List String
  antonyms : List String
  deriving DecidableEq, Repr

/-- One raw dictionary-API entry: its `phonetics` array, its top-level
`phonetic` field, and its `meanings`. -/
structure Entry where
  phonetics : List Phonetic
  phonetic : String
  meanings : List Meaning
  deriving DecidableEq, Repr

/-- Whether the first character list is a prefix of the second. -/
def charListPrefixOf : List Char → List Char → Bool
  | [], _ => true
  | _ :: _, [] => false
  | a :: as, b :: bs => a == b && charListPrefixOf as bs

/-- Whether the first character list occurs contiguously inside the
second. -/
def charListInfixOf : List Char → List Char → Bool
  | pat, [] => pat.isEmpty
  | pat, l :: rest => charListPrefixOf pat (l :: rest) || charListInfixOf pat rest

/-- ASCII lower-casing of one character (the case mapping relevant to
the region-marker checks). -/
def charLower (c : Char) : Char :=
  if 65 ≤ c.toNat && c.toNat ≤ 90 then Char.ofNat (c.toNat + 32) else c

/-- Python `s.lower()` as a character list (ASCII case mapping). -/
def pyLower (s : String) : List Char :=
  s.data.map charLower

/-- Python `pat in s.lower()`: substring containment test against the
lower-cased string. -/
def pyInLower (pat s : String) : Bool :=
  charListInfixOf pat.data (pyLower s)

/-- The UK-region audio test of `_extract_pronunciation_data`
(service.py line 477): `"-uk.mp3" in audio.lower() or "-uk-" in
audio.lower()`. -/
def ukAudioMarker (audio : String) : Bool :=
  pyInLower "-uk.mp3" audio || pyInLower "-uk-" audio

/-- The US-region audio test of `_extract_pronunciation_data`
(service.py line 484): `"-us.mp3" in audio.lower() or "-us-" in
audio.lower()`. -/
def usAudioMarker (audio : String) : Bool :=
  pyInLower "-us.mp3" audio || pyInLower "-us-" audio

/-- The audio-URL part of `_extract_pronunciation_data` (service.py
lines 474-493): first non-empty audio with a UK marker, else first with
a US marker, else first non-empty audio, else empty. -/
def extractAudioUrl (phonetics : List Phonetic) : String :=
  match phonetics.find? (fun p => p.audio != "" && ukAudioMarker p.audio) with
  | some p => p.audio
  | none =>
    match phonetics.find? (fun p => p.audio != "" && usAudioMarker p.audio) with
    | some p => p.audio
    | none =>
      match phonetics.find? (fun p => p.audio != "") with
      | some p => p.audio
      | none => ""

/-- The IPA part of `_extract_pronunciation_data` (service.py lines
495-502): first non-empty `text` field, else the top-level `phonetic`
field of the entry. -/
def extractIpaText (phonetics : List Phonetic) (top_level_phonetic : String) : String :=
  match phonetics.find? (fun p => p.text != "") with
  | some p => p.text
  | none => top_level_phonetic

/-- Mirrors `_extract_pronunciation_data` (service.py lines 460-507):
returns the `(pronunciation, ipa)` pair. -/
def extract_pronunciation_data (e : Entry) : String × String :=
  (extractAudioUrl e.phonetics, extractIpaText e.phonetics e.phonetic)

/-- The data picked out when the 2D loop of
`_fetch_single_detailed_sense_2d` reaches the requested sense
(service.py lines 600-611), with the definition-level-overrides-
meaning-level rule for synonyms and antonyms (Python `or`). -/
structure LocatedSense where
  part_of_speech : String
  definition : String
  example_ : String
  synonyms : List String
  antonyms : List String
  deriving DecidableEq, Repr

/-- Inner definitions loop of `_fetch_single_detailed_sense_2d`
(service.py lines 600-623): walk this meaning, comparing the running
`current_sense_index` against `sense_index`; returns the located sense
or the updated running count. -/
def locateDefsLoop (m : Meaning) (sense_index : Int) :
    List ApiDefinition → Nat → Option LocatedSense × Nat
  | [], current => (none, current)
  | d :: rest, current =>
      if (current : Int) = sense_index then
        (some { part_of_speech := m.partOfSpeech
                definition := d.definition
                example_ := d.example_
                synonyms := if d.synonyms = [] then m.synonyms else d.synonyms
                antonyms := if d.antonyms = [] then m.antonyms else d.antonyms },
         current)
      else locateDefsLoop m sense_index rest (current + 1)

/-- Outer meanings loop of `_fetch_single_detailed_sense_2d` (service.py
lines 594-623): walk meanings in order, threading the running
definition count through. -/
def locateMeaningsLoop (sense_index : Int) :
    List Meaning → Nat → Option LocatedSense × Nat
  | [], current => (none, current)
  | m :: rest, current =>
      match locateDefsLoop m sense_index m.definitions current with
      | (some loc, cur) => (some loc, cur)
      | (none, cur) => locateMeaningsLoop sense_index rest cur

/-- The 2D sense resolution of `_fetch_single_detailed_sense_2d`
(service.py lines 593-628): the loop starting at running count 0, with
the out-of-range error naming the valid range. -/
def resolveSense2D (entry_index sense_index : Int) (meanings : List Meaning) :
    TaskResult LocatedSense :=
  match locateMeaningsLoop sense_index meanings 0 with
  | (some loc, _) => .ok loc
  | (none, total) =>
      .err ("Invalid sense_index " ++ toString sense_index ++ ". Entry " ++
        toString entry_index ++ " has " ++ toString total ++ " senses (0-" ++
        toString ((total : Int) - 1) ++ ")")

/-- The success payload of `_fetch_single_detailed_sense_2d`. -/
structure DetailedSenseOk where
  detailed_sense : SenseDetail
  entry_index : Int
  sense_index : Int
  deriving DecidableEq, Repr

/-- Mirrors `_fetch_single_detailed_sense_2d` (service.py lines 571-641)
given the dictionary-API result and the two enrichment future outcomes:
entry bound check (negative indices rejected), 2D sense resolution, then
`_fetch_enhanced_sense` on the located sense. -/
def fetch_single_detailed_sense_2d (apiResult : TaskResult (List Entry))
    (entry_index sense_index : Int)
    (coreFut : FutureOutcome (AgentResponse SenseCoreMetadata))
    (relFut : FutureOutcome (AgentResponse SenseRelatedWords)) :
    TaskResult DetailedSenseOk :=
  match apiResult with
  | .ok entries =>
      if entry_index < 0 || entry_index ≥ (entries.length : Int) then
        .err ("Invalid entry_index " ++ toString entry_index ++ ". Word has " ++
          toString entries.length ++ " entries (0-" ++
          toString ((entries.length : Int) - 1) ++ ")")
      else
        match entries.get? entry_index.toNat with
        | none => .err "list index out of range"
        | some entry =>
          match resolveSense2D entry_index sense_index entry.meanings with
          | .err e => .err e
          | .ok loc =>
              match fetch_enhanced_sense loc.part_of_speech [loc.definition]
                  loc.synonyms loc.antonyms coreFut relFut with
              | .ok detail =>
                  .ok { detailed_sense := detail
                        entry_index := entry_index
                        sense_index := sense_index }
              | .err e => .err e
  | .err e => .err ("Dictionary API failed: " ++ e)

/-- CPython list subscript semantics for `l[i]` with an `int` index:
negative indices count from the end; out of bounds raises IndexError
("list index out of range"). -/
def pyGet {α : Type} (l : List α) (i : Int) : TaskResult α :=
  let j : Int := if i < 0 then (l.length : Int) + i else i
  if 0 ≤ j then
    match l.get? j.toNat with
    | some a => .ok a
    | none => .err "list index out of range"
  else .err "list index out of range"

/-- What the standalone locate yields: the definition text and its
optional example (examples path also reads `definition.get("example")`,
usage-notes path only the definition text). -/
structure StandaloneSense where
  definition : String
  example_ : String
  deriving DecidableEq, Repr

/-- The flat-index meanings loop shared by
`_fetch_sense_examples_standalone` (service.py lines 1073-1114) and
`_fetch_sense_usage_notes_standalone` (lines 1148-1166): on
`flat_index + len(definitions) > sense_index` it subscripts
`definitions[sense_index - flat_index]` with CPython semantics (no
negativity check), else advances the flat index. -/
def standaloneDefsLoop (entry_index sense_index : Int) :
    List Meaning → Int → TaskResult StandaloneSense
  | [], _flat =>
      .err ("Sense index " ++ toString sense_index ++ " not found in entry " ++
        toString entry_index)
  | m :: rest, flat =>
      if flat + (m.definitions.length : Int) > sense_index then
        match pyGet m.definitions (sense_index - flat) with
        | .err e => .err e
        | .ok d => .ok { definition := d.definition, example_ := d.example_ }
      else standaloneDefsLoop entry_index sense_index rest
        (flat + (m.definitions.length : Int))

/-- The entry/sense resolution shared by the standalone `examples` and
`usage_notes` sections (service.py lines 1062-1119 and 1137-1171): only
`entry_index >= len(entries)` is checked, then `entries[entry_index]`
is subscripted with CPython semantics, then the flat-index loop runs. -/
def locateSenseStandalone (entries : List Entry) (entry_index sense_index : Int) :
    TaskResult StandaloneSense :=
  if entry_index ≥ (entries.length : Int) then
    .err ("Entry index " ++ toString entry_index ++
      " out of range (total entries: " ++ toString entries.length ++ ")")
  else
    match pyGet entries entry_index with
    | .err e => .err e
    | .ok entry => standaloneDefsLoop entry_index sense_index entry.meanings 0

/-- Result of `_fetch_entry_level_section`: either the success response
carrying the resolved `entry_index` and the section data, or a failure. -/
inductive EntrySectionResult (α : Type) where
  | ok (entry_index : Int) (data : α)
  | err (msg : String)
  deriving DecidableEq, Repr

/-- The keys of `section_method_map` (service.py lines 540-547). -/
def entryLevelSections : List String :=
  ["etymology", "word_family", "usage_context", "cultural_notes",
   "frequency", "bilibili_videos"]

/-- The tail of `_fetch_entry_level_section` (service.py lines 540-569):
the map lookup, the method call on the context entry, failure
passthrough, and the success response with the resolved entry index. -/
def runSectionMethod {α : Type} (section_name : String) (target_entry_index : Int)
    (context_entry : Option Entry) (method : Option Entry → TaskResult α) :
    EntrySectionResult α :=
  if section_name ∈ entryLevelSections then
    match method context_entry with
    | .err e => .err e
    | .ok data => .ok target_entry_index data
  else .err ("Section \x27" ++ section_name ++ "\x27 not implemented")

/-- The API-result branch of `_fetch_entry_level_section` (service.py
lines 521-538): on API success the target index defaults to 0 and is
upper-bound checked; on API failure the target index is forced to 0 and
the context entry is None. -/
def fetch_entry_level_section_core {α : Type} (section_name : String)
    (entry_index : Option Int) (apiResult : TaskResult (List Entry))
    (method : Option Entry → TaskResult α) : EntrySectionResult α :=
  match apiResult with
  | .ok entries =>
      let target : Int := match entry_index with | some i => i | none => 0
      if target ≥ (entries.length : Int) then
        .err ("entry_index " ++ toString target ++ " out of range. Word has " ++
          toString entries.length ++ " entries (0-" ++
          toString ((entries.length : Int) - 1) ++ ")")
      else
        runSectionMethod section_name target (entries.get? target.toNat) method
  | .err _ => runSectionMethod section_name 0 none method

/-- Mirrors `_fetch_entry_level_section` (service.py lines 509-569): the
negative-index validation runs first, before the API fetch result is
consulted. -/
def fetch_entry_level_section {α : Type} (section_name : String)
    (entry_index : Option Int) (apiResult : TaskResult (List Entry))
    (method : Option Entry → TaskResult α) : EntrySectionResult α :=
  match entry_index with
  | some i =>
      if i < 0 then .err ("entry_index must be >= 0, got " ++ toString i)
      else fetch_entry_level_section_core section_name (some i) apiResult method
  | none => fetch_entry_level_section_core section_name none apiResult method

/-- One subtitle occurrence recorded by `_get_bilibili_subtitles`
(service.py lines 1461-1470). -/
structure SubtitleOccurrence where
  start : Int
  stop : Int
  text : String
  deriving DecidableEq, Repr

/-- One filtered video candidate at the probe stage of
`_fetch_bilibili_videos`, carrying the occurrences that probing
`_get_bilibili_subtitles(bvid, phrase)` returns for it. -/
structure VideoCandidate where
  bvid : String
  subtitleMatches : List SubtitleOccurrence
  deriving DecidableEq, Repr

/-- `MAX_VIDEOS_TO_CHECK_FOR_SUBTITLES` (service.py line 47). -/
def MAX_VIDEOS_TO_CHECK_FOR_SUBTITLES : Nat := 50

/-- The probe loop of `_fetch_bilibili_videos` (service.py lines
1272-1291): for each candidate in order, probe its subtitles; if
occurrences were found take it and break, otherwise take it anyway
(with no occurrences) and break. -/
def subtitleProbeLoop :
    List VideoCandidate → Option (VideoCandidate × List SubtitleOccurrence)
  | [] => none
  | c :: _ =>
      if c.subtitleMatches ≠ [] then some (c, c.subtitleMatches)
      else some (c, [])

/-- The candidate selection of `_fetch_bilibili_videos` (service.py
lines 1264-1291) applied to the already score-sorted filtered list: the
probe loop over the top `MAX_VIDEOS_TO_CHECK_FOR_SUBTITLES` candidates. -/
def selectBestVideo (sortedFiltered : List VideoCandidate) :
    Option (VideoCandidate × List SubtitleOccurrence) :=
  subtitleProbeLoop (sortedFiltered.take MAX_VIDEOS_TO_CHECK_FOR_SUBTITLES)

/-- `start_time` determination of `_fetch_bilibili_videos` (service.py
lines 1327-1330): 0 when no occurrences, else the minimum start. -/
def startTimeFrom (occs : List SubtitleOccurrence) : Int :=
  match occs with
  | [] => 0
  | o :: rest => rest.foldl (fun m x => min m x.start) o.start

/-- Modelled from the spec sentence of C9 (for comparison with
`selectBestVideo`): probe up to the capped number of top candidates and
take the FIRST probed candidate whose subtitles match; only if no probed
candidate matches, accept the top-scoring candidate with no occurrences. -/
def selectBestVideoClaim (sortedFiltered : List VideoCandidate) :
    Option (VideoCandidate × List SubtitleOccurrence) :=
  match (sortedFiltered.take MAX_VIDEOS_TO_CHECK_FOR_SUBTITLES).find?
      (fun c => !c.subtitleMatches.isEmpty) with
  | some c => some (c, c.subtitleMatches)
  | none =>
      match sortedFiltered with
      | [] => none
      | c :: _ => some (c, [])

/-- Positional parameter count of `get_sense_related_words_prompt` as
defined in src/ai_svc/dictionary/prompts.py lines 124-125: word,
sense_index, basic_definition, api_synonyms, api_antonyms. -/
def relatedWordsPromptParamCount : Nat := 5

/-- Positional argument count of the call to
`get_sense_related_words_prompt` in `_fetch_sense_related_words`
(service.py lines 899-903): word, sense_index, basic_definition,
api_synonyms, api_antonyms, synonyms_needed, antonyms_needed,
phrases_needed. -/
def relatedWordsPromptCallArgCount : Nat := 8

/-- CPython repr of a list of strings, as interpolated by the f-strings
of prompts.py (`\x27` is the single-quote character). -/
def pyStrListRepr (l : List String) : String :=
  "[" ++ String.intercalate ", " (l.map (fun s => "\x27" ++ s ++ "\x27")) ++ "]"

/-- The fixed instruction tail of `get_sense_related_words_prompt`
(prompts.py lines 135-143): it always requests exactly 3 of each field,
with no reference to any needed count. -/
def relatedWordsPromptFixedTail : String :=
  "\n\nProvide:\n1. **synonyms**: Exactly 3 most common synonyms for this specific sense\n2. **antonyms**: Exactly 3 most common antonyms for this specific sense (can be empty list if none exist)\n3. **word_specific_phrases**: Exactly 3 most common fixed expressions, phrasal verbs, or idioms built around this sense (e.g., \"run up a bill\", \"in the long run\")\n\nFocus on the most useful words/phrases that help learners expand vocabulary.\n\nOutput must be valid JSON matching the SenseRelatedWords schema."

/-- Mirrors `get_sense_related_words_prompt` as defined in
src/ai_svc/dictionary/prompts.py lines 124-143: five positional
parameters, no needed-count parameters. -/
def get_sense_related_words_prompt (word : String) (sense_index : Int)
    (basic_definition : String) (api_synonyms api_antonyms : List String) : String :=
  let synonyms_context :=
    if api_synonyms ≠ [] then
      "\n\nAPI provided synonyms: " ++ pyStrListRepr api_synonyms
    else ""
  let antonyms_context :=
    if api_antonyms ≠ [] then
      "\n\nAPI provided antonyms: " ++ pyStrListRepr api_antonyms
    else ""
  "You are a linguistic expert specializing in word relationships.\n\nAnalyze sense #" ++
    toString (sense_index + 1) ++ " of \"" ++ word ++ "\": \"" ++ basic_definition ++
    "\"" ++ synonyms_context ++ antonyms_context ++ relatedWordsPromptFixedTail

/-! Helper lemmas. -/

/-- Length of the pad-to-n of a list. -/
theorem length_padTo (n : Nat) (l : List String) :
    (padTo n l).length = max l.length n := by
  simp only [padTo, List.length_append, List.length_replicate]
  omega

/-- The auxiliary walk keeps a duplicate-free, unseen left part intact as
a prefix. -/
theorem dedupKeepFirstAux_append_nodup (xs : List String) (h : xs.Nodup) :
    ∀ seen ys : List String, (∀ x ∈ xs, x ∉ seen) →
      ∃ zs, dedupKeepFirstAux seen (xs ++ ys) = xs ++ zs := by
  induction xs with
  | nil => exact fun seen ys _ => ⟨dedupKeepFirstAux seen ys, rfl⟩
  | cons a rest ih =>
    intro seen ys hdisj
    rw [List.cons_append]
    simp only [dedupKeepFirstAux]
    rw [if_neg (hdisj a (List.mem_cons_self a rest))]
    obtain ⟨zs, hzs⟩ := ih (List.nodup_cons.mp h).2 (a :: seen) ys (by
      intro x hx
      rw [List.mem_cons]
      push_neg
      exact ⟨ne_of_mem_of_not_mem hx (List.nodup_cons.mp h).1,
        hdisj x (List.mem_cons_of_mem a hx)⟩)
    exact ⟨zs, by rw [hzs, List.cons_append]⟩

/-- De-duplication keeps a duplicate-free left part intact as a prefix. -/
theorem dedupKeepFirst_append_nodup (xs : List String) (h : xs.Nodup) (ys : List String) :
    ∃ zs, dedupKeepFirst (xs ++ ys) = xs ++ zs :=
  dedupKeepFirstAux_append_nodup xs h [] ys (by simp)

/-- Taking `min |xs| 3` elements of the padded 3-truncation of `xs ++ zs`
recovers the 3-truncation of `xs`. -/
theorem take_min_padTo (xs zs : List String) :
    (padTo 3 ((xs ++ zs).take 3)).take (min xs.length 3) = xs.take 3 := by
  have hk : min xs.length 3 ≤ ((xs ++ zs).take 3).length := by
    simp only [List.length_take, List.length_append]
    omega
  rw [padTo, List.take_append_of_le_length hk, List.take_take]
  have h1 : min (min xs.length 3) 3 = min xs.length 3 := by omega
  rw [h1]
  rcases Nat.le_total xs.length 3 with hle | hge
  · have h2 : min xs.length 3 = xs.length := by omega
    rw [h2, List.take_left, List.take_of_length_le hle]
  · have h2 : min xs.length 3 = 3 := by omega
    rw [h2, List.take_append_of_le_length hge]

/-- A successful core sub-task always carries the API-provided definition. -/
theorem enhancedCoreResult_definition (pos : String) (defs : List String)
    (fut : FutureOutcome (AgentResponse SenseCoreMetadata)) (core : CoreData)
    (h : enhancedCoreResult pos defs fut = .ok core) :
    core.definition = basicDefinition defs := by
  cases fut with
  | ran resp =>
    cases resp with
    | parsed c =>
      simp only [enhancedCoreResult, runFuture, fetch_sense_core_metadata,
        TaskResult.ok.injEq] at h
      rw [← h]
    | unparsed => simp [enhancedCoreResult, runFuture, fetch_sense_core_metadata] at h
    | raised m => simp [enhancedCoreResult, runFuture, fetch_sense_core_metadata] at h
  | cancelled => simp [enhancedCoreResult, runFuture] at h
  | notReady => simp [enhancedCoreResult, runFuture] at h
  | raised m => simp [enhancedCoreResult, runFuture] at h

/-! Claim theorems. -/

/-- C2: for every successful sense-enrichment result, whatever the
lengths of the ground-truth synonym/antonym lists and of the
model-generated synonym/antonym/phrase lists, the merged synonyms,
antonyms, and word_specific_phrases lists each have length exactly 3. -/
theorem C2_padding_invariant (part_of_speech : String)
    (api_definitions api_synonyms api_antonyms : List String)
    (coreFut : FutureOutcome (AgentResponse SenseCoreMetadata))
    (relFut : FutureOutcome (AgentResponse SenseRelatedWords))
    (d : SenseDetail)
    (h : fetch_enhanced_sense part_of_speech api_definitions api_synonyms
      api_antonyms coreFut relFut = .ok d) :
    d.synonyms.length = 3 ∧ d.antonyms.length = 3 ∧
      d.word_specific_phrases.length = 3 := by
  cases hc : enhancedCoreResult part_of_speech api_definitions coreFut with
  | ok core =>
    cases hr : enhancedRelatedResult relFut with
    | ok rel =>
      unfold fetch_enhanced_sense at h
      rw [hc, hr] at h
      simp only [TaskResult.ok.injEq] at h
      rw [← h]
      refine ⟨?_, ?_, ?_⟩ <;>
        simp only [TARGET_SYNONYMS, TARGET_ANTONYMS, TARGET_PHRASES,
          length_padTo, List.length_take] <;>
        omega
    | err m =>
      unfold fetch_enhanced_sense at h
      rw [hc, hr] at h
      simp at h
  | err m =>
    cases hr : enhancedRelatedResult relFut <;>
      · unfold fetch_enhanced_sense at h
        rw [hc, hr] at h
        simp at h

/-- C2 witness: a concrete successful enrichment with zero ground-truth
synonyms still yields 3-element lists. -/
theorem C2_padding_invariant_witness :
    ({ definition := "def", part_of_speech := "noun",
       usage_register := ["formal"], domain := [], tone := "neutral",
       synonyms := ["x", "", ""], antonyms := ["", "", ""],
       word_specific_phrases := ["p", "", ""] } : SenseDetail).synonyms.length = 3 ∧
    ({ definition := "def", part_of_speech := "noun",
       usage_register := ["formal"], domain := [], tone := "neutral",
       synonyms := ["x", "", ""], antonyms := ["", "", ""],
       word_specific_phrases := ["p", "", ""] } : SenseDetail).antonyms.length = 3 ∧
    ({ definition := "def", part_of_speech := "noun",
       usage_register := ["formal"], domain := [], tone := "neutral",
       synonyms := ["x", "", ""], antonyms := ["", "", ""],
       word_specific_phrases := ["p", "", ""] } : SenseDetail).word_specific_phrases.length = 3 :=
  C2_padding_invariant "noun" ["def"] [] []
    (.ran (.parsed { part_of_speech := "n", usage_register := ["formal"], domain := [], tone := "neutral" }))
    (.ran (.parsed { synonyms := ["x"], antonyms := [], word_specific_phrases := ["p"] }))
    _ (by decide)

/-- C3 counterexample: with duplicated ground-truth synonyms
`["a", "a"]` the merged list starts `["a", "b"]`, not `["a", "a"]`: the
de-duplication also collapses duplicates inside the ground-truth list,
so the first `len(S_api)` entries do not equal `S_api`. -/
theorem C3_counterexample :
    fetch_enhanced_sense "noun" ["def"] ["a", "a"] []
      (.ran (.parsed { part_of_speech := "n", usage_register := ["formal"], domain := [], tone := "neutral" }))
      (.ran (.parsed { synonyms := ["b"], antonyms := [], word_specific_phrases := ["p1"] })) =
      TaskResult.ok (SenseDetail.mk "def" "noun" ["formal"] [] "neutral"
        ["a", "b", ""] ["", "", ""] ["p1", "", ""]) ∧
    (["a", "b", ""] : List String).take (min (["a", "a"] : List String).length 3) ≠
      (["a", "a"] : List String).take 3 := by
  exact ⟨by decide, by decide⟩

/-- C3 (amended): for every sense whose API-provided synonyms `S_api`
contain no duplicates, the first `min len(S_api) 3` entries of the
merged synonyms list of a successful enrichment equal `S_api` (truncated
to 3) in original order. -/
theorem C3_ground_truth_priority (part_of_speech : String)
    (api_definitions api_synonyms api_antonyms : List String)
    (coreFut : FutureOutcome (AgentResponse SenseCoreMetadata))
    (relFut : FutureOutcome (AgentResponse SenseRelatedWords))
    (d : SenseDetail)
    (hnodup : api_synonyms.Nodup)
    (h : fetch_enhanced_sense part_of_speech api_definitions api_synonyms
      api_antonyms coreFut relFut = .ok d) :
    d.synonyms.take (min api_synonyms.length 3) = api_synonyms.take 3 := by
  cases hc : enhancedCoreResult part_of_speech api_definitions coreFut with
  | ok core =>
    cases hr : enhancedRelatedResult relFut with
    | ok rel =>
      unfold fetch_enhanced_sense at h
      rw [hc, hr] at h
      simp only [TaskResult.ok.injEq] at h
      rw [← h]
      obtain ⟨zs, hzs⟩ := dedupKeepFirst_append_nodup api_synonyms hnodup rel.synonyms
      simp only [TARGET_SYNONYMS]
      rw [hzs]
      exact take_min_padTo api_synonyms zs
    | err m =>
      unfold fetch_enhanced_sense at h
      rw [hc, hr] at h
      simp at h
  | err m =>
    cases hr : enhancedRelatedResult relFut <;>
      · unfold fetch_enhanced_sense at h
        rw [hc, hr] at h
        simp at h

/-- C3 witness: concrete duplicate-free ground truth `["s1", "s2"]` heads
the merged list in order. -/
theorem C3_ground_truth_priority_witness :
    ({ definition := "def", part_of_speech := "noun",
       usage_register := ["formal"], domain := [], tone := "neutral",
       synonyms := ["s1", "s2", "x"], antonyms := ["", "", ""],
       word_specific_phrases := ["p1", "", ""] } : SenseDetail).synonyms.take
        (min (["s1", "s2"] : List String).length 3) =
      (["s1", "s2"] : List String).take 3 :=
  C3_ground_truth_priority "noun" ["def"] ["s1", "s2"] []
    (.ran (.parsed { part_of_speech := "n", usage_register := ["formal"], domain := [], tone := "neutral" }))
    (.ran (.parsed { synonyms := ["s1", "x"], antonyms := [], word_specific_phrases := ["p1"] }))
    _ (by decide) (by decide)

/-- C7: for every successful enrichment, whatever the model responses and
future outcomes, the definition field of the result equals the
API-provided definition (the first API definition, empty if none). -/
theorem C7_definition_is_ground_truth (part_of_speech : String)
    (api_definitions api_synonyms api_antonyms : List String)
    (coreFut : FutureOutcome (AgentResponse SenseCoreMetadata))
    (relFut : FutureOutcome (AgentResponse SenseRelatedWords))
    (d : SenseDetail)
    (h : fetch_enhanced_sense part_of_speech api_definitions api_synonyms
      api_antonyms coreFut relFut = .ok d) :
    d.definition = basicDefinition api_definitions := by
  cases hc : enhancedCoreResult part_of_speech api_definitions coreFut with
  | ok core =>
    cases hr : enhancedRelatedResult relFut with
    | ok rel =>
      unfold fetch_enhanced_sense at h
      rw [hc, hr] at h
      simp only [TaskResult.ok.injEq] at h
      rw [← h]
      exact enhancedCoreResult_definition part_of_speech api_definitions coreFut core hc
    | err m =>
      unfold fetch_enhanced_sense at h
      rw [hc, hr] at h
      simp at h
  | err m =>
    cases hr : enhancedRelatedResult relFut <;>
      · unfold fetch_enhanced_sense at h
        rw [hc, hr] at h
        simp at h

/-- C7 witness: a concrete model response proposing a different
definition cannot override the API definition. -/
theorem C7_definition_is_ground_truth_witness :
    ({ definition := "the API definition", part_of_speech := "noun",
       usage_register := [], domain := [], tone := "neutral",
       synonyms := ["", "", ""], antonyms := ["", "", ""],
       word_specific_phrases := ["", "", ""] } : SenseDetail).definition =
      basicDefinition ["the API definition"] :=
  C7_definition_is_ground_truth "noun" ["the API definition"] [] []
    (.ran (.parsed { part_of_speech := "n", usage_register := [], domain := [], tone := "neutral" }))
    (.ran (.parsed { synonyms := [], antonyms := [], word_specific_phrases := [] }))
    _ (by decide)

/-- C8: whenever at least one of the two sub-tasks fails (including being
cancelled at the deadline or not ready), the whole enrichment call fails
and its error message is the aggregation over a non-empty list of
per-sub-task messages, containing the name and individual reason of each
failed sub-task. -/
theorem C8_aggregate_failure (part_of_speech : String)
    (api_definitions api_synonyms api_antonyms : List String)
    (coreFut : FutureOutcome (AgentResponse SenseCoreMetadata))
    (relFut : FutureOutcome (AgentResponse SenseRelatedWords))
    (h : (∃ e, enhancedCoreResult part_of_speech api_definitions coreFut = .err e) ∨
         (∃ e, enhancedRelatedResult relFut = .err e)) :
    ∃ msgs : List String,
      fetch_enhanced_sense part_of_speech api_definitions api_synonyms
        api_antonyms coreFut relFut =
        .err ("Parallel execution failed: " ++ String.intercalate ", " msgs) ∧
      msgs ≠ [] ∧
      (∀ e, enhancedCoreResult part_of_speech api_definitions coreFut = .err e →
        ("core: " ++ e) ∈ msgs) ∧
      (∀ e, enhancedRelatedResult relFut = .err e → ("related: " ++ e) ∈ msgs) := by
  cases hc : enhancedCoreResult part_of_speech api_definitions coreFut with
  | ok core =>
    cases hr : enhancedRelatedResult relFut with
    | ok rel =>
      rw [hc, hr] at h
      rcases h with ⟨e, he⟩ | ⟨e, he⟩ <;> exact absurd he (by simp)
    | err m =>
      refine ⟨["related: " ++ m], ?_, by simp, ?_, ?_⟩
      · unfold fetch_enhanced_sense
        rw [hc, hr]
        simp [subtaskErrors]
      · intro e he
        exact absurd he (by simp)
      · intro e he
        simp only [TaskResult.err.injEq] at he
        subst he
        exact List.mem_singleton.mpr rfl
  | err m =>
    cases hr : enhancedRelatedResult relFut with
    | ok rel =>
      refine ⟨["core: " ++ m], ?_, by simp, ?_, ?_⟩
      · unfold fetch_enhanced_sense
        rw [hc, hr]
        simp [subtaskErrors]
      · intro e he
        simp only [TaskResult.err.injEq] at he
        subst he
        exact List.mem_singleton.mpr rfl
      · intro e he
        exact absurd he (by simp)
    | err m2 =>
      refine ⟨["core: " ++ m, "related: " ++ m2], ?_, by simp, ?_, ?_⟩
      · unfold fetch_enhanced_sense
        rw [hc, hr]
        simp [subtaskErrors]
      · intro e he
        simp only [TaskResult.err.injEq] at he
        subst he
        exact List.mem_cons_self _ _
      · intro e he
        simp only [TaskResult.err.injEq] at he
        subst he
        exact List.mem_cons_of_mem _ (List.mem_singleton.mpr rfl)

/-- C8 witness: with the core future cancelled at the deadline and the
related-words future successful, the enrichment fails and the message
enumerates the cancelled core sub-task with its reason. -/
theorem C8_aggregate_failure_witness :
    ∃ msgs : List String,
      fetch_enhanced_sense "noun" ["def"] [] [] .cancelled
        (.ran (.parsed { synonyms := ["x"], antonyms := [], word_specific_phrases := ["p"] })) =
        .err ("Parallel execution failed: " ++ String.intercalate ", " msgs) ∧
      msgs ≠ [] ∧
      (∀ e, enhancedCoreResult "noun" ["def"] .cancelled = .err e →
        ("core: " ++ e) ∈ msgs) ∧
      (∀ e, enhancedRelatedResult
          (.ran (.parsed { synonyms := ["x"], antonyms := [], word_specific_phrases := ["p"] })) = .err e →
        ("related: " ++ e) ∈ msgs) :=
  C8_aggregate_failure "noun" ["def"] [] [] .cancelled
    (.ran (.parsed { synonyms := ["x"], antonyms := [], word_specific_phrases := ["p"] }))
    (Or.inl ⟨"Task core_metadata was cancelled", by decide⟩)

/-- C1: the enrichment computes per-field needed counts exactly as
`max(0, 3 - len(ground_truth))` (phrases always 3) and passes them to
the related-words sub-task, but the committed prompt builder has only 5
positional parameters, so the 8-argument call raises a TypeError in
Python, and the prompt text the builder would produce always ends with
the fixed instructions asking for exactly 3 of each field, independent
of any needed count: the dynamic quantities never reach the model. -/
theorem C1_dynamic_counts_never_reach_prompt :
    synonymsNeeded ["jog"] = 2 ∧ antonymsNeeded [] = 3 ∧ phrasesNeeded = 3 ∧
    relatedWordsPromptParamCount < relatedWordsPromptCallArgCount ∧
    (∀ (word basic_definition : String) (sense_index : Int)
      (api_synonyms api_antonyms : List String),
      ∃ pre, get_sense_related_words_prompt word sense_index basic_definition
        api_synonyms api_antonyms = pre ++ relatedWordsPromptFixedTail) := by
  refine ⟨by decide, by decide, by decide, by decide, ?_⟩
  intro word basic_definition sense_index api_synonyms api_antonyms
  exact ⟨_, rfl⟩

/-- C4 counterexample: on the phonetics of the claim, the extractor
returns the US-named file, not the UK-named one: the region markers in
the code require a leading hyphen (`-uk-` / `-uk.mp3`), which
`uk-1.mp3` does not contain, so the scan falls through to the first
audio URL of any kind. -/
theorem C4_counterexample :
    extract_pronunciation_data
      (Entry.mk [Phonetic.mk "a" "", Phonetic.mk "" "us-1.mp3",
        Phonetic.mk "" "uk-1.mp3"] "" []) = ("us-1.mp3", "a") ∧
    extractAudioUrl [Phonetic.mk "a" "", Phonetic.mk "" "us-1.mp3",
      Phonetic.mk "" "uk-1.mp3"] ≠ "uk-1.mp3" := by
  exact ⟨by decide, by decide⟩

/-- C4 (amended): the audio fallback scans for the first audio URL
containing `-uk.mp3` or `-uk-` (case-insensitive), else the first
containing `-us.mp3` or `-us-`, else the first non-empty audio URL, else
empty; the text tiers (first non-empty phonetic text, else the top-level
phonetic field) feed the separate ipa value, not the pronunciation; on
the claimed input, where neither hyphenated marker occurs, the first
audio URL `us-1.mp3` wins. -/
theorem C4_pronunciation_fallback :
    extractAudioUrl [Phonetic.mk "a" "", Phonetic.mk "" "x-us.mp3",
      Phonetic.mk "" "x-uk.mp3"] = "x-uk.mp3" ∧
    extractAudioUrl [Phonetic.mk "a" "", Phonetic.mk "" "plain.mp3",
      Phonetic.mk "" "x-us.mp3"] = "x-us.mp3" ∧
    extractAudioUrl [Phonetic.mk "a" "", Phonetic.mk "" "us-1.mp3",
      Phonetic.mk "" "uk-1.mp3"] = "us-1.mp3" ∧
    extract_pronunciation_data (Entry.mk [Phonetic.mk "a" ""] "top" []) =
      ("", "a") ∧
    extract_pronunciation_data (Entry.mk [Phonetic.mk "" ""] "top" []) =
      ("", "top") := by
  exact ⟨by decide, by decide, by decide, by decide, by decide⟩

/-- Builds definition objects with the given definition texts and no
example, synonyms, or antonyms. -/
def mkApiDefs (names : List String) : List ApiDefinition :=
  names.map (fun n => ApiDefinition.mk n "" [] [])

/-- An entry with meanings of definition counts [3, 5, 2]. -/
def c5Meanings : List Meaning :=
  [Meaning.mk "noun" (mkApiDefs ["d00", "d01", "d02"]) [] [],
   Meaning.mk "verb" (mkApiDefs ["d10", "d11", "d12", "d13", "d14"]) [] [],
   Meaning.mk "adjective" (mkApiDefs ["d20", "d21"]) [] []]

/-- C5: on an entry with meaning definition counts [3, 5, 2], sense
indices 0-2 resolve to the definitions of meaning 0, 3-7 to meaning 1,
8-9 to meaning 2, and sense_index 10 fails with the validation error
naming the valid range 0-9, both in the resolution loop and through the
full detailed-sense path. -/
theorem C5_sense_index_resolution :
    ((List.range 10).map (fun k =>
      match resolveSense2D 0 (k : Int) c5Meanings with
      | .ok loc => some (loc.part_of_speech, loc.definition)
      | .err _ => none) =
      [some ("noun", "d00"), some ("noun", "d01"), some ("noun", "d02"),
       some ("verb", "d10"), some ("verb", "d11"), some ("verb", "d12"),
       some ("verb", "d13"), some ("verb", "d14"),
       some ("adjective", "d20"), some ("adjective", "d21")]) ∧
    resolveSense2D 0 10 c5Meanings =
      .err "Invalid sense_index 10. Entry 0 has 10 senses (0-9)" ∧
    fetch_single_detailed_sense_2d (.ok [Entry.mk [] "" c5Meanings]) 0 10
      .cancelled .cancelled =
      .err "Invalid sense_index 10. Entry 0 has 10 senses (0-9)" := by
  exact ⟨by decide, by decide, by decide⟩

/-- A one-meaning, two-definition entry. -/
def c6EntryA : Entry :=
  Entry.mk [] "" [Meaning.mk "noun" (mkApiDefs ["a0", "a1"]) [] []]

/-- A one-meaning, one-definition entry. -/
def c6EntryB : Entry :=
  Entry.mk [] "" [Meaning.mk "verb" (mkApiDefs ["b0"]) [] []]

/-- C6: on the standalone examples/usage_notes resolution, a negative
entry_index silently wraps around to the last entry and a negative
sense_index silently wraps around to the last definition of the first
meaning (CPython negative-subscript semantics, no validation error), and
the out-of-range errors that are produced do not name a valid range; by
contrast the detailed_sense path does reject a negative entry_index with
a range-naming validation error. -/
theorem C6_negative_index_wraparound :
    locateSenseStandalone [c6EntryA, c6EntryB] (-1) 0 =
      .ok (StandaloneSense.mk "b0" "") ∧
    locateSenseStandalone [c6EntryA] 0 (-1) =
      .ok (StandaloneSense.mk "a1" "") ∧
    locateSenseStandalone [c6EntryA] 0 7 =
      .err "Sense index 7 not found in entry 0" ∧
    locateSenseStandalone [c6EntryA] 5 0 =
      .err "Entry index 5 out of range (total entries: 1)" ∧
    fetch_single_detailed_sense_2d (.ok [c6EntryA]) (-1) 0
      .cancelled .cancelled =
      .err "Invalid entry_index -1. Word has 1 entries (0-0)" := by
  exact ⟨by decide, by decide, by decide, by decide, by decide⟩

/-- A probe-stage candidate with no subtitle match. -/
def c9NoMatch : VideoCandidate := VideoCandidate.mk "BV1" []

/-- A probe-stage candidate whose subtitles match at 7 seconds. -/
def c9Match : VideoCandidate :=
  VideoCandidate.mk "BV2" [SubtitleOccurrence.mk 7 9 "line"]

/-- C9 counterexample: with the top-scoring candidate lacking a subtitle
match and the second candidate having one, the code still takes the
first candidate with start_time 0, while the claim predicts the second
candidate with its matching timestamp: the probe loop breaks after the
first candidate in both branches. -/
theorem C9_counterexample :
    selectBestVideo [c9NoMatch, c9Match] = some (c9NoMatch, []) ∧
    selectBestVideoClaim [c9NoMatch, c9Match] =
      some (c9Match, [SubtitleOccurrence.mk 7 9 "line"]) ∧
    selectBestVideo [c9NoMatch, c9Match] ≠
      selectBestVideoClaim [c9NoMatch, c9Match] := by
  exact ⟨by decide, by decide, by decide⟩

/-- Lower bounds and attainment for the running minimum fold. -/
theorem foldl_min_facts (rest : List SubtitleOccurrence) (a : Int) :
    rest.foldl (fun m x => min m x.start) a ≤ a ∧
    (∀ o ∈ rest, rest.foldl (fun m x => min m x.start) a ≤ o.start) ∧
    (rest.foldl (fun m x => min m x.start) a = a ∨
      ∃ o ∈ rest, rest.foldl (fun m x => min m x.start) a = o.start) := by
  induction rest generalizing a with
  | nil => exact ⟨le_refl a, by simp, Or.inl rfl⟩
  | cons x xs ih =>
    simp only [List.foldl_cons]
    obtain ⟨h1, h2, h3⟩ := ih (min a x.start)
    refine ⟨le_trans h1 (min_le_left _ _), ?_, ?_⟩
    · intro o ho
      rcases List.mem_cons.mp ho with rfl | ho2
      · exact le_trans h1 (min_le_right _ _)
      · exact h2 o ho2
    · rcases h3 with heq | ⟨o, ho, heq⟩
      · rcases min_choice a x.start with hmin | hmin
        · exact Or.inl (by rw [heq, hmin])
        · exact Or.inr ⟨x, List.mem_cons_self x xs, by rw [heq, hmin]⟩
      · exact Or.inr ⟨o, List.mem_cons_of_mem x ho, heq⟩

/-- The recorded start time of a non-empty occurrence list is its
earliest (minimum) start. -/
theorem startTimeFrom_is_min (occs : List SubtitleOccurrence) (h : occs ≠ []) :
    (∃ o ∈ occs, startTimeFrom occs = o.start) ∧
    ∀ o ∈ occs, startTimeFrom occs ≤ o.start := by
  cases occs with
  | nil => exact absurd rfl h
  | cons o rest =>
    simp only [startTimeFrom]
    obtain ⟨h1, h2, h3⟩ := foldl_min_facts rest o.start
    constructor
    · rcases h3 with heq | ⟨o2, ho2, heq⟩
      · exact ⟨o, List.mem_cons_self o rest, heq⟩
      · exact ⟨o2, List.mem_cons_of_mem o ho2, heq⟩
    · intro o2 ho2
      rcases List.mem_cons.mp ho2 with rfl | hmem
      · exact h1
      · exact h2 o2 hmem

/-- C9 (amended): only the first (top-scoring) candidate of the sorted
filtered list is ever probed: the selection equals the head candidate
paired with its own subtitle matches (candidates beyond the first are
never consulted); start_time is 0 for an empty match list, and for a
non-empty one it is the earliest matching timestamp. -/
theorem C9_first_candidate_only (l : List VideoCandidate) :
    selectBestVideo l = l.head?.map (fun c => (c, c.subtitleMatches)) ∧
    startTimeFrom [] = 0 ∧
    (∀ occs : List SubtitleOccurrence, occs ≠ [] →
      (∃ o ∈ occs, startTimeFrom occs = o.start) ∧
      ∀ o ∈ occs, startTimeFrom occs ≤ o.start) := by
  refine ⟨?_, rfl, fun occs h => startTimeFrom_is_min occs h⟩
  cases l with
  | nil => rfl
  | cons c rest =>
    show (if c.subtitleMatches ≠ [] then some (c, c.subtitleMatches)
      else some (c, [])) = some (c, c.subtitleMatches)
    by_cases hm : c.subtitleMatches = []
    · rw [hm]
      simp
    · rw [if_pos hm]

/-- C9 amended witness: the selection and earliest-timestamp facts at a
concrete one-candidate list. -/
theorem C9_first_candidate_only_witness :
    selectBestVideo [c9Match] =
      [c9Match].head?.map (fun c => (c, c.subtitleMatches)) ∧
    ∃ o ∈ c9Match.subtitleMatches,
      startTimeFrom c9Match.subtitleMatches = o.start := by
  obtain ⟨h1, _, h3⟩ := C9_first_candidate_only [c9Match]
  exact ⟨h1, (h3 c9Match.subtitleMatches (by decide)).1⟩

/-- C10 counterexample: with a failing API fetch and a succeeding AI
call, a caller-supplied negative entry_index is not ignored: the
dispatcher fails the request with the negativity validation error
instead of returning success with entry_index 0. -/
theorem C10_counterexample :
    fetch_entry_level_section "etymology" (some (-1))
      (.err "API returned status 404") (fun _ => TaskResult.ok "etymology data") =
      .err "entry_index must be >= 0, got -1" ∧
    fetch_entry_level_section "etymology" (some (-1))
      (.err "API returned status 404") (fun _ => TaskResult.ok "etymology data") ≠
      EntrySectionResult.ok 0 "etymology data" := by
  exact ⟨by decide, by decide⟩

/-- C10 (amended): for every entry-level section, when the API fetch
fails and the AI call succeeds, the dispatcher returns success with
entry_index fixed to 0, ignoring any non-negative caller-supplied
entry_index with no upper-range validation on that path; a negative
entry_index is instead rejected before the API result is consulted. -/
theorem C10_api_failure_ai_only_path {α : Type} (section_name : String)
    (entry_index : Option Int) (apiErr : String)
    (method : Option Entry → TaskResult α) (d : α)
    (hsec : section_name ∈ entryLevelSections)
    (hnonneg : ∀ j, entry_index = some j → 0 ≤ j)
    (hai : method none = .ok d) :
    fetch_entry_level_section section_name entry_index (.err apiErr) method =
      .ok 0 d := by
  cases entry_index with
  | none =>
    simp only [fetch_entry_level_section, fetch_entry_level_section_core,
      runSectionMethod]
    rw [if_pos hsec, hai]
  | some i =>
    have hi : ¬ i < 0 := by
      have := hnonneg i rfl
      omega
    simp only [fetch_entry_level_section]
    rw [if_neg hi]
    simp only [fetch_entry_level_section_core, runSectionMethod]
    rw [if_pos hsec, hai]

/-- C10 amended witness: a large entry_index on a failed API fetch is
silently ignored and the response carries entry_index 0. -/
theorem C10_api_failure_ai_only_path_witness :
    fetch_entry_level_section "frequency" (some 3) (.err "API request timeout")
      (fun _ => TaskResult.ok "very_common") = .ok 0 "very_common" :=
  C10_api_failure_ai_only_path "frequency" (some 3) "API request timeout"
    (fun _ => TaskResult.ok "very_common") "very_common" (by decide)
    (fun j hj => by injection hj with h; omega) rfl

end PPAI
